import Mathlib

/-! # Arithmetic operations of the C style template

A shallow embedding of `template.c` / `template.h`.

* `int32_t` values are mathematical integers in the range `[INT32_MIN, INT32_MAX]`
  (predicate `isInt32`).  The result of a C arithmetic operator on `int32_t` operands is
  the exact integer result brought back into that range by `wrap32` (two's complement,
  modulo `2^32`).  The C source leaves signed overflow to the platform; wrapping is the
  semantics fixed for this development.
* `error_code_t` is the enumeration of `template.h`; the numeric value of each enumerator
  is computed by the C rule for enumerator lists (`enumerator_values`).
* An output location `int32_t* result` is an `Option Int`: `none` is the null pointer,
  `some v` is a valid location currently holding `v`.
-/

namespace Template

/-! ## Signed 32-bit integers -/

/-- Smallest `int32_t` value, `-2^31`. -/
def INT32_MIN : Int := -2147483648

/-- Largest `int32_t` value, `2^31 - 1`. -/
def INT32_MAX : Int := 2147483647

/-- Number of distinct 32-bit patterns, `2^32`. -/
def UINT32_MOD : Int := 4294967296

/-- Membership in the value range of `int32_t`. -/
def isInt32 (x : Int) : Prop := INT32_MIN ≤ x ∧ x ≤ INT32_MAX

instance (x : Int) : Decidable (isInt32 x) := by
  unfold isInt32
  exact inferInstance

/-- Reduction of an exact integer result to `int32_t`: take the residue modulo `2^32`
and read it as a two's complement pattern. -/
def wrap32 (x : Int) : Int :=
  let r := x % UINT32_MOD
  if r ≤ INT32_MAX then r else r - UINT32_MOD

/-- The C unary minus on an `int32_t` operand. -/
def int32_neg (x : Int) : Int := wrap32 (-x)

/-! ## `template.c` -/

/-- Source: `int32_t sum_two_numbers(int32_t a, int32_t b) { return (a + b); }`. -/
def sum_two_numbers (a b : Int) : Int := wrap32 (a + b)

/-- Source: `int32_t subtract_two_numbers(int32_t a, int32_t b) { return (a - b); }`. -/
def subtract_two_numbers (a b : Int) : Int := wrap32 (a - b)

/-- Source: `if (a >= b) { return a; } else { return b; }`. -/
def find_maximum (a b : Int) : Int :=
  if a ≥ b then a else b

/-! ## `template.h` -/

/-- Source: `typedef enum { ERROR_NONE = 0, ERROR_NULL_POINTER, ERROR_DIVISION_BY_ZERO,
ERROR_INVALID_PARAMETER } error_code_t;`. -/
inductive error_code_t where
  | ERROR_NONE
  | ERROR_NULL_POINTER
  | ERROR_DIVISION_BY_ZERO
  | ERROR_INVALID_PARAMETER
  deriving DecidableEq, Repr

/-- The C rule for the values of an enumerator list: an enumerator with an initialiser
takes that value, one without takes the previous value plus one (`next`), starting at
`0` for the first enumerator. -/
def enumerator_values : Int → List (Option Int) → List Int
  | _, [] => []
  | _, some v :: rest => v :: enumerator_values (v + 1) rest
  | next, none :: rest => next :: enumerator_values (next + 1) rest

/-- The enumerator list of `error_code_t` as written in `template.h`: each enumerator
with its initialiser, if it has one. -/
def error_code_t.enumerators : List (error_code_t × Option Int) :=
  [ (error_code_t.ERROR_NONE, some 0),
    (error_code_t.ERROR_NULL_POINTER, none),
    (error_code_t.ERROR_DIVISION_BY_ZERO, none),
    (error_code_t.ERROR_INVALID_PARAMETER, none) ]

/-- Numeric value of an enumerator of `error_code_t`. -/
def error_code_t.value (e : error_code_t) : Int :=
  let names := error_code_t.enumerators.map Prod.fst
  let values := enumerator_values 0 (error_code_t.enumerators.map Prod.snd)
  ((names.zip values).lookup e).getD 0

/-- The C operator `/` on `int32_t` operands with a non-zero divisor: the quotient
truncated towards zero, brought into range by `wrap32`. -/
def int32_div (a b : Int) : Int := wrap32 (Int.tdiv a b)

/-- What a checked operation does to a valid result location when the divisor is zero.
The spec leaves the choice open: the location is left as it was, or `0` is stored. -/
inductive zero_divisor_policy where
  | leave_unwritten
  | write_zero
  deriving DecidableEq, Repr

/-- Modelled from the spec: the body of `sum`, which `template.h` declares and no source
file defines.  By the spec, `checked_sum` signals the null-reference error if the output
location is absent, and otherwise writes `a + b` into it and returns no-error, with no
overflow check.  The pair returned is the error code and the final state of the output
location. -/
def sum (a b : Int) (result : Option Int) : error_code_t × Option Int :=
  match result with
  | none => (error_code_t.ERROR_NULL_POINTER, none)
  | some _ => (error_code_t.ERROR_NONE, some (wrap32 (a + b)))

/-- Modelled from the spec: the body of `divide`, which `template.h` declares and no
source file defines.  By the spec, `checked_divide` signals the null-reference error if
the output location is absent; otherwise, if `b` is zero it signals the division-by-zero
error and leaves the location unwritten or writes `0` (the `policy`, left open by the
spec); otherwise it writes `a / b` and returns no-error.  The pair returned is the error
code and the final state of the output location. -/
def divide (policy : zero_divisor_policy) (a b : Int) (result : Option Int) :
    error_code_t × Option Int :=
  match result with
  | none => (error_code_t.ERROR_NULL_POINTER, none)
  | some old =>
    if b = 0 then
      match policy with
      | zero_divisor_policy.leave_unwritten => (error_code_t.ERROR_DIVISION_BY_ZERO, some old)
      | zero_divisor_policy.write_zero => (error_code_t.ERROR_DIVISION_BY_ZERO, some 0)
    else
      (error_code_t.ERROR_NONE, some (int32_div a b))

/-! ## Calls in a program state -/

/-- A call of `sum_two_numbers` in a program state `s`, which stands for every object of
the program outside the call.  `template.c` declares no file-scope variable and the body
`return (a + b);` reads and writes its parameters only, so the state is handed back as
it was.  The pair is the returned value and the state after the call. -/
def call_sum_two_numbers {σ : Type} (s : σ) (a b : Int) : Int × σ :=
  (sum_two_numbers a b, s)

/-- A call of `subtract_two_numbers` in a program state `s`; the body `return (a - b);`
reads and writes its parameters only. -/
def call_subtract_two_numbers {σ : Type} (s : σ) (a b : Int) : Int × σ :=
  (subtract_two_numbers a b, s)

/-- A call of `find_maximum` in a program state `s`; both branches of the body return a
parameter and nothing else is read or written. -/
def call_find_maximum {σ : Type} (s : σ) (a b : Int) : Int × σ :=
  (find_maximum a b, s)

end Template

namespace Template

/-! ## Range lemmas for `wrap32` -/

theorem wrap32_range (x : Int) : isInt32 (wrap32 x) := by
  unfold wrap32 isInt32
  simp only [INT32_MIN, INT32_MAX, UINT32_MOD]
  split_ifs <;> omega

theorem wrap32_exact (x : Int) (h : isInt32 x) : wrap32 x = x := by
  unfold wrap32
  unfold isInt32 at h
  simp only [INT32_MIN, INT32_MAX, UINT32_MOD] at *
  split_ifs <;> omega

theorem wrap32_above (x : Int) (h1 : INT32_MAX < x) (h2 : x ≤ INT32_MAX + UINT32_MOD) :
    wrap32 x = x - UINT32_MOD := by
  unfold wrap32
  simp only [INT32_MIN, INT32_MAX, UINT32_MOD] at *
  split_ifs <;> omega

theorem wrap32_below (x : Int) (h1 : x < INT32_MIN) (h2 : INT32_MIN - UINT32_MOD ≤ x) :
    wrap32 x = x + UINT32_MOD := by
  unfold wrap32
  simp only [INT32_MIN, INT32_MAX, UINT32_MOD] at *
  split_ifs <;> omega

theorem wrap32_congr (x : Int) : wrap32 x % UINT32_MOD = x % UINT32_MOD := by
  unfold wrap32
  simp only [INT32_MIN, INT32_MAX, UINT32_MOD]
  split_ifs <;> omega

theorem tdiv_range (a b : Int) (ha : isInt32 a) (hb : isInt32 b) (hb0 : b ≠ 0)
    (hov : ¬ (a = INT32_MIN ∧ b = -1)) : isInt32 (Int.tdiv a b) := by
  unfold isInt32 at *
  simp only [INT32_MIN, INT32_MAX] at *
  have hq : (Int.tdiv a b).natAbs = a.natAbs / b.natAbs := Int.natAbs_tdiv a b
  have hle : a.natAbs / b.natAbs ≤ a.natAbs := Nat.div_le_self _ _
  by_cases h1 : b = 1
  · subst h1
    rw [Int.tdiv_one]
    exact ha
  · by_cases h2 : b = -1
    · subst h2
      have hneg : Int.tdiv a (-1) = -a := by
        rw [Int.tdiv_neg, Int.tdiv_one]
      rw [hneg]
      omega
    · have hm : 2 ≤ b.natAbs := by omega
      have hhalf : a.natAbs / b.natAbs ≤ a.natAbs / 2 := Nat.div_le_div_left hm (by decide)
      omega

theorem find_maximum_range (a b : Int) (ha : isInt32 a) (hb : isInt32 b) :
    isInt32 (find_maximum a b) := by
  unfold find_maximum
  split_ifs
  · exact ha
  · exact hb

theorem wrap32_eq_of_congr (x y : Int) (hy : isInt32 y)
    (h : x % UINT32_MOD = y % UINT32_MOD) : wrap32 x = y := by
  unfold wrap32
  unfold isInt32 at hy
  simp only [INT32_MIN, INT32_MAX, UINT32_MOD] at *
  split_ifs <;> omega

/-! ## `find_maximum` -/

/-- C1: for `int32_t` values `a` and `b`, `find_maximum a b` is `a` when `a >= b` and `b`
otherwise; in particular it is `a` when `a = b`. -/
theorem find_maximum_select (a b : Int) (_ha : isInt32 a) (_hb : isInt32 b) :
    (a ≥ b → find_maximum a b = a) ∧ (¬ a ≥ b → find_maximum a b = b) ∧
      (a = b → find_maximum a b = a) := by
  unfold find_maximum
  refine ⟨fun h => ?_, fun h => ?_, fun h => ?_⟩
  · rw [if_pos h]
  · rw [if_neg h]
  · rw [if_pos (ge_of_eq h)]

theorem find_maximum_select_witness :
    isInt32 7 ∧ isInt32 7 ∧
      (((7 : Int) ≥ 7 → find_maximum 7 7 = 7) ∧ (¬ (7 : Int) ≥ 7 → find_maximum 7 7 = 7) ∧
        ((7 : Int) = 7 → find_maximum 7 7 = 7)) :=
  ⟨by decide, by decide, find_maximum_select 7 7 (by decide) (by decide)⟩

/-- C2: for `int32_t` values `a` and `b`, the result `m` of `find_maximum a b` satisfies
`m >= a` and `m >= b`, and `m = a` when `a = b`. -/
theorem find_maximum_upper_bound (a b : Int) (_ha : isInt32 a) (_hb : isInt32 b) :
    find_maximum a b ≥ a ∧ find_maximum a b ≥ b ∧ (a = b → find_maximum a b = a) := by
  unfold find_maximum
  split_ifs with h
  · exact ⟨le_refl a, h, fun _ => rfl⟩
  · exact ⟨by omega, le_refl b, fun e => e.symm⟩

theorem find_maximum_upper_bound_witness :
    isInt32 (-2147483648) ∧ isInt32 2147483647 ∧
      (find_maximum (-2147483648) 2147483647 ≥ -2147483648 ∧
        find_maximum (-2147483648) 2147483647 ≥ 2147483647 ∧
        ((-2147483648 : Int) = 2147483647 →
          find_maximum (-2147483648) 2147483647 = -2147483648)) :=
  ⟨by decide, by decide,
    find_maximum_upper_bound (-2147483648) 2147483647 (by decide) (by decide)⟩

/-! ## `sum_two_numbers` and `subtract_two_numbers` -/

/-- C3: for `int32_t` values `a` and `b`, `sum_two_numbers a b` is an `int32_t` value; it
is the mathematical sum whenever that sum is representable, and otherwise the sum
reduced modulo `2^32` into the `int32_t` range (`a + b - 2^32` above the range,
`a + b + 2^32` below it).  No input is rejected. -/
theorem sum_two_numbers_spec (a b : Int) (ha : isInt32 a) (hb : isInt32 b) :
    isInt32 (sum_two_numbers a b) ∧
      (isInt32 (a + b) → sum_two_numbers a b = a + b) ∧
      (INT32_MAX < a + b → sum_two_numbers a b = a + b - UINT32_MOD) ∧
      (a + b < INT32_MIN → sum_two_numbers a b = a + b + UINT32_MOD) ∧
      sum_two_numbers a b % UINT32_MOD = (a + b) % UINT32_MOD := by
  unfold sum_two_numbers
  refine ⟨wrap32_range _, wrap32_exact _, fun h => ?_, fun h => ?_, wrap32_congr _⟩
  · apply wrap32_above _ h
    unfold isInt32 at ha hb
    simp only [INT32_MIN, INT32_MAX, UINT32_MOD] at *
    omega
  · apply wrap32_below _ h
    unfold isInt32 at ha hb
    simp only [INT32_MIN, INT32_MAX, UINT32_MOD] at *
    omega

theorem sum_two_numbers_spec_witness :
    isInt32 2147483647 ∧ isInt32 1 ∧
      (isInt32 (sum_two_numbers 2147483647 1) ∧
        (isInt32 (2147483647 + 1) → sum_two_numbers 2147483647 1 = 2147483647 + 1) ∧
        (INT32_MAX < 2147483647 + 1 →
          sum_two_numbers 2147483647 1 = 2147483647 + 1 - UINT32_MOD) ∧
        (2147483647 + 1 < INT32_MIN →
          sum_two_numbers 2147483647 1 = 2147483647 + 1 + UINT32_MOD) ∧
        sum_two_numbers 2147483647 1 % UINT32_MOD = (2147483647 + 1) % UINT32_MOD) :=
  ⟨by decide, by decide, sum_two_numbers_spec 2147483647 1 (by decide) (by decide)⟩

/-- C4: for `int32_t` values `a` and `b`, `subtract_two_numbers a b` is an `int32_t`
value; it is the mathematical difference whenever that difference is representable, and
otherwise the difference reduced modulo `2^32` into the `int32_t` range. -/
theorem subtract_two_numbers_spec (a b : Int) (ha : isInt32 a) (hb : isInt32 b) :
    isInt32 (subtract_two_numbers a b) ∧
      (isInt32 (a - b) → subtract_two_numbers a b = a - b) ∧
      (INT32_MAX < a - b → subtract_two_numbers a b = a - b - UINT32_MOD) ∧
      (a - b < INT32_MIN → subtract_two_numbers a b = a - b + UINT32_MOD) ∧
      subtract_two_numbers a b % UINT32_MOD = (a - b) % UINT32_MOD := by
  unfold subtract_two_numbers
  refine ⟨wrap32_range _, wrap32_exact _, fun h => ?_, fun h => ?_, wrap32_congr _⟩
  · apply wrap32_above _ h
    unfold isInt32 at ha hb
    simp only [INT32_MIN, INT32_MAX, UINT32_MOD] at *
    omega
  · apply wrap32_below _ h
    unfold isInt32 at ha hb
    simp only [INT32_MIN, INT32_MAX, UINT32_MOD] at *
    omega

theorem subtract_two_numbers_spec_witness :
    isInt32 (-2147483648) ∧ isInt32 1 ∧
      (isInt32 (subtract_two_numbers (-2147483648) 1) ∧
        (isInt32 (-2147483648 - 1) →
          subtract_two_numbers (-2147483648) 1 = -2147483648 - 1) ∧
        (INT32_MAX < -2147483648 - 1 →
          subtract_two_numbers (-2147483648) 1 = -2147483648 - 1 - UINT32_MOD) ∧
        (-2147483648 - 1 < INT32_MIN →
          subtract_two_numbers (-2147483648) 1 = -2147483648 - 1 + UINT32_MOD) ∧
        subtract_two_numbers (-2147483648) 1 % UINT32_MOD =
          (-2147483648 - 1) % UINT32_MOD) :=
  ⟨by decide, by decide,
    subtract_two_numbers_spec (-2147483648) 1 (by decide) (by decide)⟩

/-- C5: for `int32_t` values `a` and `b`, `sum_two_numbers a b = sum_two_numbers b a`,
whether or not the sum overflows. -/
theorem sum_two_numbers_comm (a b : Int) (_ha : isInt32 a) (_hb : isInt32 b) :
    sum_two_numbers a b = sum_two_numbers b a := by
  unfold sum_two_numbers
  rw [Int.add_comm]

theorem sum_two_numbers_comm_witness :
    isInt32 2147483647 ∧ isInt32 5 ∧
      sum_two_numbers 2147483647 5 = sum_two_numbers 5 2147483647 :=
  ⟨by decide, by decide, sum_two_numbers_comm 2147483647 5 (by decide) (by decide)⟩

/-- C6: for `int32_t` values `a` and `b` such that `a - b`, `b - a` and `-(b - a)` are all
representable, `subtract_two_numbers a b` is the C negation of
`subtract_two_numbers b a`, and also its mathematical negation. -/
theorem subtract_two_numbers_antisymm (a b : Int) (_ha : isInt32 a) (_hb : isInt32 b)
    (hab : isInt32 (a - b)) (hba : isInt32 (b - a)) (hneg : isInt32 (-(b - a))) :
    subtract_two_numbers a b = int32_neg (subtract_two_numbers b a) ∧
      subtract_two_numbers a b = -(subtract_two_numbers b a) := by
  unfold int32_neg subtract_two_numbers
  rw [wrap32_exact _ hab, wrap32_exact _ hba, wrap32_exact _ hneg]
  constructor <;> omega

theorem subtract_two_numbers_antisymm_witness :
    isInt32 5 ∧ isInt32 (-3) ∧ isInt32 (5 - (-3)) ∧ isInt32 (-3 - 5) ∧
      isInt32 (-(-3 - 5)) ∧
      (subtract_two_numbers 5 (-3) = int32_neg (subtract_two_numbers (-3) 5) ∧
        subtract_two_numbers 5 (-3) = -(subtract_two_numbers (-3) 5)) :=
  ⟨by decide, by decide, by decide, by decide, by decide,
    subtract_two_numbers_antisymm 5 (-3) (by decide) (by decide) (by decide) (by decide)
      (by decide)⟩

/-! ## `error_code_t` -/

/-- C7: `error_code_t` has exactly the four members `ERROR_NONE`, `ERROR_NULL_POINTER`,
`ERROR_DIVISION_BY_ZERO` and `ERROR_INVALID_PARAMETER`, with the values 0, 1, 2 and 3; an
error code is non-zero exactly when it is not `ERROR_NONE`, and different members have
different values. -/
theorem error_code_t_values :
    (∀ e : error_code_t,
        e = error_code_t.ERROR_NONE ∨ e = error_code_t.ERROR_NULL_POINTER ∨
          e = error_code_t.ERROR_DIVISION_BY_ZERO ∨
          e = error_code_t.ERROR_INVALID_PARAMETER) ∧
      error_code_t.enumerators.length = 4 ∧
      error_code_t.ERROR_NONE.value = 0 ∧
      error_code_t.ERROR_NULL_POINTER.value = 1 ∧
      error_code_t.ERROR_DIVISION_BY_ZERO.value = 2 ∧
      error_code_t.ERROR_INVALID_PARAMETER.value = 3 ∧
      (∀ e : error_code_t, e.value ≠ 0 ↔ e ≠ error_code_t.ERROR_NONE) ∧
      (∀ e₁ e₂ : error_code_t, e₁ ≠ e₂ → e₁.value ≠ e₂.value) := by
  refine ⟨?_, rfl, rfl, rfl, rfl, rfl, ?_, ?_⟩
  · intro e
    cases e <;> simp
  · intro e
    cases e <;> decide
  · intro e₁ e₂
    cases e₁ <;> cases e₂ <;> decide

/-! ## `sum` and `divide` -/

/-- C8: for `int32_t` values `a` and `b` and a valid result location, `divide` returns
`ERROR_DIVISION_BY_ZERO` exactly when `b = 0`; when `b ≠ 0` it returns `ERROR_NONE` and
stores the C quotient `a / b`, which is the quotient truncated towards zero except for
`INT32_MIN / -1`; when `b = 0` the location keeps its old content or holds `0`.
`divide 10 2` gives `(ERROR_NONE, 5)` and `divide 7 0` gives `ERROR_DIVISION_BY_ZERO`. -/
theorem divide_spec (policy : zero_divisor_policy) (a b old : Int)
    (ha : isInt32 a) (hb : isInt32 b) :
    ((divide policy a b (some old)).1 = error_code_t.ERROR_DIVISION_BY_ZERO ↔ b = 0) ∧
      (b ≠ 0 →
        divide policy a b (some old) = (error_code_t.ERROR_NONE, some (int32_div a b))) ∧
      (b ≠ 0 → ¬ (a = INT32_MIN ∧ b = -1) → int32_div a b = Int.tdiv a b) ∧
      (b = 0 →
        (divide policy a b (some old)).2 = some old ∨
          (divide policy a b (some old)).2 = some 0) ∧
      divide policy 10 2 (some old) = (error_code_t.ERROR_NONE, some 5) ∧
      (divide policy 7 0 (some old)).1 = error_code_t.ERROR_DIVISION_BY_ZERO := by
  refine ⟨?_, ?_, ?_, ?_, ?_, ?_⟩
  · unfold divide
    by_cases h : b = 0
    · cases policy <;> simp [h]
    · simp [h]
  · intro h
    unfold divide
    simp [h]
  · intro h hov
    unfold int32_div
    exact wrap32_exact _ (tdiv_range a b ha hb h hov)
  · intro h
    unfold divide
    cases policy <;> simp [h]
  · unfold divide
    simp
    decide
  · unfold divide
    cases policy <;> simp

theorem divide_spec_witness :
    isInt32 (-7) ∧ isInt32 2 ∧
      (((divide zero_divisor_policy.leave_unwritten (-7) 2 (some 99)).1 =
            error_code_t.ERROR_DIVISION_BY_ZERO ↔ (2 : Int) = 0) ∧
        ((2 : Int) ≠ 0 →
          divide zero_divisor_policy.leave_unwritten (-7) 2 (some 99) =
            (error_code_t.ERROR_NONE, some (int32_div (-7) 2))) ∧
        ((2 : Int) ≠ 0 → ¬ ((-7 : Int) = INT32_MIN ∧ (2 : Int) = -1) →
          int32_div (-7) 2 = Int.tdiv (-7) 2) ∧
        ((2 : Int) = 0 →
          (divide zero_divisor_policy.leave_unwritten (-7) 2 (some 99)).2 = some 99 ∨
            (divide zero_divisor_policy.leave_unwritten (-7) 2 (some 99)).2 = some 0) ∧
        divide zero_divisor_policy.leave_unwritten 10 2 (some 99) =
          (error_code_t.ERROR_NONE, some 5) ∧
        (divide zero_divisor_policy.leave_unwritten 7 0 (some 99)).1 =
          error_code_t.ERROR_DIVISION_BY_ZERO) :=
  ⟨by decide, by decide,
    divide_spec zero_divisor_policy.leave_unwritten (-7) 2 99 (by decide) (by decide)⟩

/-- C9: for `int32_t` values `a` and `b` and a valid result location, `sum` stores
`a + b` (the same value as `sum_two_numbers a b`: exact when representable, wrapped
otherwise, never rejected) and returns `ERROR_NONE`; `sum 5 (-3)` gives
`(ERROR_NONE, 2)`. -/
theorem sum_spec (a b old : Int) (_ha : isInt32 a) (_hb : isInt32 b) :
    sum a b (some old) = (error_code_t.ERROR_NONE, some (sum_two_numbers a b)) ∧
      (isInt32 (a + b) → sum a b (some old) = (error_code_t.ERROR_NONE, some (a + b))) ∧
      (¬ isInt32 (a + b) → (sum a b (some old)).1 = error_code_t.ERROR_NONE) ∧
      sum 5 (-3) (some old) = (error_code_t.ERROR_NONE, some 2) := by
  unfold sum sum_two_numbers
  refine ⟨rfl, fun h => ?_, fun _ => rfl, ?_⟩
  · simp only [wrap32_exact _ h]
  · simp only [Prod.mk.injEq, Option.some.injEq, true_and]
    decide

theorem sum_spec_witness :
    isInt32 2147483647 ∧ isInt32 1 ∧
      (sum 2147483647 1 (some 0) =
          (error_code_t.ERROR_NONE, some (sum_two_numbers 2147483647 1)) ∧
        (isInt32 (2147483647 + 1) →
          sum 2147483647 1 (some 0) = (error_code_t.ERROR_NONE, some (2147483647 + 1))) ∧
        (¬ isInt32 (2147483647 + 1) →
          (sum 2147483647 1 (some 0)).1 = error_code_t.ERROR_NONE) ∧
        sum 5 (-3) (some 0) = (error_code_t.ERROR_NONE, some 2)) :=
  ⟨by decide, by decide, sum_spec 2147483647 1 0 (by decide) (by decide)⟩

/-- C10: for `int32_t` values `a` and `b`, `b = 0` included, `sum` and `divide` called
with a null result location return `ERROR_NULL_POINTER`. -/
theorem null_result_location (policy : zero_divisor_policy) (a b : Int)
    (_ha : isInt32 a) (_hb : isInt32 b) :
    (sum a b none).1 = error_code_t.ERROR_NULL_POINTER ∧
      (divide policy a b none).1 = error_code_t.ERROR_NULL_POINTER ∧
      (divide policy a 0 none).1 = error_code_t.ERROR_NULL_POINTER := by
  exact ⟨rfl, rfl, rfl⟩

theorem null_result_location_witness :
    isInt32 7 ∧ isInt32 0 ∧
      ((sum 7 0 none).1 = error_code_t.ERROR_NULL_POINTER ∧
        (divide zero_divisor_policy.write_zero 7 0 none).1 =
          error_code_t.ERROR_NULL_POINTER ∧
        (divide zero_divisor_policy.write_zero 7 0 none).1 =
          error_code_t.ERROR_NULL_POINTER) :=
  ⟨by decide, by decide,
    null_result_location zero_divisor_policy.write_zero 7 0 (by decide) (by decide)⟩

/-! ## Totality and purity of the unchecked operations -/

/-- C11: `sum_two_numbers`, `subtract_two_numbers` and `find_maximum` have no error path:
for every pair of `int32_t` inputs each yields a value, and that value is an `int32_t`. -/
theorem unchecked_total (a b : Int) (ha : isInt32 a) (hb : isInt32 b) :
    (∃ v : Int, sum_two_numbers a b = v ∧ isInt32 v) ∧
      (∃ v : Int, subtract_two_numbers a b = v ∧ isInt32 v) ∧
      (∃ v : Int, find_maximum a b = v ∧ isInt32 v) := by
  refine ⟨⟨_, rfl, ?_⟩, ⟨_, rfl, ?_⟩, ⟨_, rfl, ?_⟩⟩
  · exact wrap32_range _
  · exact wrap32_range _
  · exact find_maximum_range a b ha hb

theorem unchecked_total_witness :
    isInt32 (-2147483648) ∧ isInt32 (-2147483648) ∧
      ((∃ v : Int, sum_two_numbers (-2147483648) (-2147483648) = v ∧ isInt32 v) ∧
        (∃ v : Int, subtract_two_numbers (-2147483648) (-2147483648) = v ∧ isInt32 v) ∧
        (∃ v : Int, find_maximum (-2147483648) (-2147483648) = v ∧ isInt32 v)) :=
  ⟨by decide, by decide,
    unchecked_total (-2147483648) (-2147483648) (by decide) (by decide)⟩

/-- C12: a call of `sum_two_numbers`, `subtract_two_numbers` or `find_maximum` returns the
same value for the same arguments in any two program states, leaves the state as it
was, and so returns the same value again when repeated. -/
theorem unchecked_deterministic {σ : Type} (s s' : σ) (a b : Int)
    (_ha : isInt32 a) (_hb : isInt32 b) :
    ((call_sum_two_numbers s a b).1 = (call_sum_two_numbers s' a b).1 ∧
        (call_sum_two_numbers s a b).2 = s ∧
        (call_sum_two_numbers (call_sum_two_numbers s a b).2 a b).1 =
          (call_sum_two_numbers s a b).1) ∧
      ((call_subtract_two_numbers s a b).1 = (call_subtract_two_numbers s' a b).1 ∧
        (call_subtract_two_numbers s a b).2 = s ∧
        (call_subtract_two_numbers (call_subtract_two_numbers s a b).2 a b).1 =
          (call_subtract_two_numbers s a b).1) ∧
      ((call_find_maximum s a b).1 = (call_find_maximum s' a b).1 ∧
        (call_find_maximum s a b).2 = s ∧
        (call_find_maximum (call_find_maximum s a b).2 a b).1 =
          (call_find_maximum s a b).1) := by
  unfold call_sum_two_numbers call_subtract_two_numbers call_find_maximum
  exact ⟨⟨rfl, rfl, rfl⟩, ⟨rfl, rfl, rfl⟩, ⟨rfl, rfl, rfl⟩⟩

theorem unchecked_deterministic_witness :
    isInt32 2147483647 ∧ isInt32 (-4) ∧
      (((call_sum_two_numbers (0 : Nat) 2147483647 (-4)).1 =
            (call_sum_two_numbers (1 : Nat) 2147483647 (-4)).1 ∧
          (call_sum_two_numbers (0 : Nat) 2147483647 (-4)).2 = 0 ∧
          (call_sum_two_numbers (call_sum_two_numbers (0 : Nat) 2147483647 (-4)).2
              2147483647 (-4)).1 = (call_sum_two_numbers (0 : Nat) 2147483647 (-4)).1) ∧
        ((call_subtract_two_numbers (0 : Nat) 2147483647 (-4)).1 =
            (call_subtract_two_numbers (1 : Nat) 2147483647 (-4)).1 ∧
          (call_subtract_two_numbers (0 : Nat) 2147483647 (-4)).2 = 0 ∧
          (call_subtract_two_numbers (call_subtract_two_numbers (0 : Nat) 2147483647 (-4)).2
              2147483647 (-4)).1 =
            (call_subtract_two_numbers (0 : Nat) 2147483647 (-4)).1) ∧
        ((call_find_maximum (0 : Nat) 2147483647 (-4)).1 =
            (call_find_maximum (1 : Nat) 2147483647 (-4)).1 ∧
          (call_find_maximum (0 : Nat) 2147483647 (-4)).2 = 0 ∧
          (call_find_maximum (call_find_maximum (0 : Nat) 2147483647 (-4)).2
              2147483647 (-4)).1 = (call_find_maximum (0 : Nat) 2147483647 (-4)).1)) :=
  ⟨by decide, by decide,
    unchecked_deterministic (0 : Nat) (1 : Nat) 2147483647 (-4) (by decide) (by decide)⟩

/-! ## Further properties of `find_maximum` -/

/-- C13: for `int32_t` values `a` and `b`, `find_maximum a b` is the least upper bound of
`a` and `b`: it is an `int32_t` value equal to `a` or to `b`, it satisfies
`find_maximum a b >= a` and `find_maximum a b >= b`, and every `int32_t` value `c` with
`c >= a` and `c >= b` satisfies `c >= find_maximum a b`.  It is the only value with the
last two properties. -/
theorem find_maximum_least_upper_bound (a b : Int) (ha : isInt32 a) (hb : isInt32 b) :
    isInt32 (find_maximum a b) ∧
      (find_maximum a b = a ∨ find_maximum a b = b) ∧
      find_maximum a b ≥ a ∧ find_maximum a b ≥ b ∧
      (∀ c : Int, isInt32 c → c ≥ a → c ≥ b → c ≥ find_maximum a b) ∧
      (∀ m : Int, isInt32 m → m ≥ a → m ≥ b →
        (∀ c : Int, isInt32 c → c ≥ a → c ≥ b → c ≥ m) → m = find_maximum a b) := by
  have hr : isInt32 (find_maximum a b) := find_maximum_range a b ha hb
  have hub : find_maximum a b ≥ a ∧ find_maximum a b ≥ b := by
    unfold find_maximum
    split_ifs with h
    · exact ⟨le_refl a, h⟩
    · exact ⟨by omega, le_refl b⟩
  have hleast : ∀ c : Int, isInt32 c → c ≥ a → c ≥ b → c ≥ find_maximum a b := by
    intro c _ hca hcb
    unfold find_maximum
    split_ifs
    · exact hca
    · exact hcb
  refine ⟨hr, ?_, hub.1, hub.2, hleast, ?_⟩
  · unfold find_maximum
    split_ifs
    · exact Or.inl rfl
    · exact Or.inr rfl
  · intro m hm hma hmb hmin
    have h1 : find_maximum a b ≥ m := hmin _ hr hub.1 hub.2
    have h2 : m ≥ find_maximum a b := hleast m hm hma hmb
    omega

theorem find_maximum_least_upper_bound_witness :
    isInt32 (-5) ∧ isInt32 12 ∧
      (isInt32 (find_maximum (-5) 12) ∧
        (find_maximum (-5) 12 = -5 ∨ find_maximum (-5) 12 = 12) ∧
        find_maximum (-5) 12 ≥ -5 ∧ find_maximum (-5) 12 ≥ 12 ∧
        (∀ c : Int, isInt32 c → c ≥ -5 → c ≥ 12 → c ≥ find_maximum (-5) 12) ∧
        (∀ m : Int, isInt32 m → m ≥ -5 → m ≥ 12 →
          (∀ c : Int, isInt32 c → c ≥ -5 → c ≥ 12 → c ≥ m) → m = find_maximum (-5) 12)) :=
  ⟨by decide, by decide, find_maximum_least_upper_bound (-5) 12 (by decide) (by decide)⟩

/-- C14: for `int32_t` values `a` and `b`, `find_maximum a b = find_maximum b a`, and
`find_maximum a a = a`. -/
theorem find_maximum_comm (a b : Int) (_ha : isInt32 a) (_hb : isInt32 b) :
    find_maximum a b = find_maximum b a ∧ find_maximum a a = a := by
  unfold find_maximum
  refine ⟨?_, ?_⟩
  · split_ifs <;> omega
  · rw [if_pos (le_refl a)]

theorem find_maximum_comm_witness :
    isInt32 3 ∧ isInt32 (-9) ∧
      (find_maximum 3 (-9) = find_maximum (-9) 3 ∧ find_maximum 3 3 = 3) :=
  ⟨by decide, by decide, find_maximum_comm 3 (-9) (by decide) (by decide)⟩

/-! ## Wrapping identities -/

/-- C15: for `int32_t` values `a` and `b`, overflowing pairs included,
`subtract_two_numbers (sum_two_numbers a b) b = a` and
`sum_two_numbers (subtract_two_numbers a b) b = a`. -/
theorem subtract_undoes_sum (a b : Int) (ha : isInt32 a) (_hb : isInt32 b) :
    subtract_two_numbers (sum_two_numbers a b) b = a ∧
      sum_two_numbers (subtract_two_numbers a b) b = a := by
  unfold subtract_two_numbers sum_two_numbers
  constructor
  · apply wrap32_eq_of_congr _ _ ha
    have h := wrap32_congr (a + b)
    simp only [UINT32_MOD] at *
    omega
  · apply wrap32_eq_of_congr _ _ ha
    have h := wrap32_congr (a - b)
    simp only [UINT32_MOD] at *
    omega

theorem subtract_undoes_sum_witness :
    isInt32 2147483647 ∧ isInt32 2147483647 ∧
      (subtract_two_numbers (sum_two_numbers 2147483647 2147483647) 2147483647 =
          2147483647 ∧
        sum_two_numbers (subtract_two_numbers 2147483647 2147483647) 2147483647 =
          2147483647) :=
  ⟨by decide, by decide,
    subtract_undoes_sum 2147483647 2147483647 (by decide) (by decide)⟩

/-- C16: for `int32_t` values `a` and `b`, with no condition on overflow,
`subtract_two_numbers a b` is the C negation of `subtract_two_numbers b a`; at
`a = INT32_MIN`, `b = 0` both sides are `INT32_MIN`, although `b - a` is not
representable. -/
theorem subtract_two_numbers_antisymm_wrapping (a b : Int)
    (_ha : isInt32 a) (_hb : isInt32 b) :
    subtract_two_numbers a b = int32_neg (subtract_two_numbers b a) ∧
      isInt32 (INT32_MIN - 0) ∧ ¬ isInt32 (0 - INT32_MIN) ∧
      subtract_two_numbers INT32_MIN 0 = INT32_MIN ∧
      int32_neg (subtract_two_numbers 0 INT32_MIN) = INT32_MIN := by
  refine ⟨?_, by decide, by decide, by decide, by decide⟩
  unfold int32_neg subtract_two_numbers
  symm
  apply wrap32_eq_of_congr _ _ (wrap32_range _)
  have h1 := wrap32_congr (a - b)
  have h2 := wrap32_congr (b - a)
  simp only [UINT32_MOD] at *
  omega

theorem subtract_two_numbers_antisymm_wrapping_witness :
    isInt32 (-2147483648) ∧ isInt32 0 ∧
      (subtract_two_numbers (-2147483648) 0 =
          int32_neg (subtract_two_numbers 0 (-2147483648)) ∧
        isInt32 (INT32_MIN - 0) ∧ ¬ isInt32 (0 - INT32_MIN) ∧
        subtract_two_numbers INT32_MIN 0 = INT32_MIN ∧
        int32_neg (subtract_two_numbers 0 INT32_MIN) = INT32_MIN) :=
  ⟨by decide, by decide,
    subtract_two_numbers_antisymm_wrapping (-2147483648) 0 (by decide) (by decide)⟩

end Template
